import Mathlib

/-!
Verification of `MpscWriter` (src/twitchchat/src/writer/mpsc_writer.rs):
a channel-backed buffering writer exposing a synchronous `Write`
interface (`write`/`flush`) and a cooperative `AsyncWrite` interface
(`poll_write`/`poll_flush`/`poll_close`) over one shared state, plus an
`encode` convenience.

Bytes are modelled as `Nat`, byte buffers as `List Nat`.  Rust's
`&mut self` methods become functions from the writer state (and the
external channel state) to a result together with the updated states.
-/

namespace TwitchChat

/-- Modelled from the spec: the bounded mpsc channel (`crate::Sender` /
`crate::channel`, not part of the provided sources).  It carries immutable
byte sequences, has a fixed capacity, and can be permanently closed.
`queue` lists the elements the consumer has not yet drained, oldest
first. -/
structure Channel where
  cap : Nat
  queue : List (List Nat)
  closed : Bool
deriving Repr, DecidableEq

/-- Modelled from the spec: outcome of the channel's non-blocking send
primitive, mirroring `crate::channel::TrySendError` — accepted, rejected
because at capacity (element handed back), or rejected because the
channel is permanently closed. -/
inductive TrySendResult where
  | ok
  | full (data : List Nat)
  | closedErr (data : List Nat)
deriving Repr, DecidableEq

/-- Modelled from the spec: the channel's non-blocking `try_send`.  A
closed channel rejects with `closedErr`; a channel at capacity rejects
with `full`, returning the element intact; otherwise the element is
appended to the queue. -/
def Channel.trySend (c : Channel) (data : List Nat) : TrySendResult × Channel :=
  if c.closed then (TrySendResult.closedErr data, c)
  else if c.cap ≤ c.queue.length then (TrySendResult.full data, c)
  else (TrySendResult.ok, { c with queue := c.queue ++ [data] })

/-- Error kinds of `std::io::Error` that this code can surface: the
writer raises `UnexpectedEof`; the external encoder may raise anything,
abstracted by `other`. -/
inductive IoErrorKind where
  | UnexpectedEof
  | other (code : Nat)
deriving Repr, DecidableEq

/-- An `std::io::Error` as observed through this code: a kind and a
message. -/
structure IoError where
  kind : IoErrorKind
  msg : String
deriving Repr, DecidableEq

/-- `std::task::Poll`. -/
inductive Poll (α : Type) where
  | Ready (a : α)
  | Pending
deriving Repr, DecidableEq

/-- The task `Context` argument of the `AsyncWrite` methods.  The source
never inspects it (`_cx`), so an opaque token suffices. -/
abbrev Context := Nat

/-- The writer state: the owned byte buffer `buf` and the channel
handle.  The handle is represented by an identifier; clones share it,
while the channel's state (`Channel`) lives outside the writer and is
threaded through each operation, matching `Sender` being a shared handle
to one channel. -/
structure MpscWriter where
  buf : List Nat
  channel : Nat
deriving Repr, DecidableEq

/-- `MpscWriter::new`: buffer starts empty, handle stored. -/
def MpscWriter.new (channel : Nat) : MpscWriter :=
  { buf := [], channel := channel }

/-- `Clone for MpscWriter`: fresh empty buffer, same channel handle. -/
def MpscWriter.clone (w : MpscWriter) : MpscWriter :=
  { buf := [], channel := w.channel }

/-- `Write::write`: `self.buf.extend_from_slice(buf); Ok(buf.len())`.
The channel is part of `&mut self` but untouched, so it is threaded
through unchanged. -/
def MpscWriter.write (w : MpscWriter) (c : Channel) (b : List Nat) :
    Except IoError Nat × MpscWriter × Channel :=
  (Except.ok b.length, { w with buf := w.buf ++ b }, c)

/-- `Write::flush`: `mem::take` the buffer, `try_send` it as one boxed
slice; `Ok` on success, an `UnexpectedEof` "writer was closed" error on
`Closed`, and on `Full` the data is placed back and `Ok` returned. -/
def MpscWriter.flush (w : MpscWriter) (c : Channel) :
    Except IoError Unit × MpscWriter × Channel :=
  let buf := w.buf
  let w' : MpscWriter := { w with buf := [] }
  match c.trySend buf with
  | (TrySendResult.ok, c') => (Except.ok (), w', c')
  | (TrySendResult.closedErr _, c') =>
      (Except.error ⟨IoErrorKind.UnexpectedEof, "writer was closed"⟩, w', c')
  | (TrySendResult.full data, c') => (Except.ok (), { w' with buf := data }, c')

/-- Modelled from the spec: the external encoding capability
(`Encodable`, not part of the provided sources).  One invocation on the
buffer is summarised by the bytes it appends before returning and its
outcome — a partially-successful encode may append bytes and still
fail. -/
structure EncodeOutcome where
  appended : List Nat
  result : Except IoError Unit
deriving Repr

/-- `MpscWriter::encode`: `msg.encode(&mut self.buf)?; self.flush()` —
run the encoder into the buffer, propagate its error, otherwise
flush. -/
def MpscWriter.encode (w : MpscWriter) (c : Channel) (e : EncodeOutcome) :
    Except IoError Unit × MpscWriter × Channel :=
  let w' : MpscWriter := { w with buf := w.buf ++ e.appended }
  match e.result with
  | Except.error err => (Except.error err, w', c)
  | Except.ok () => w'.flush c

/-- `AsyncWrite::poll_write`: appends the bytes and is immediately
`Ready(Ok(buf.len()))`; the context `_cx` is ignored as in the
source. -/
def MpscWriter.pollWrite (w : MpscWriter) (c : Channel) (_cx : Context) (b : List Nat) :
    Poll (Except IoError Nat) × MpscWriter × Channel :=
  (Poll.Ready (Except.ok b.length), { w with buf := w.buf ++ b }, c)

/-- `AsyncWrite::poll_flush`: `mem::take` the buffer, `try_send`;
`Ready(Ok)` on success, `Pending` with the data placed back on `Full`,
`Ready(Err(UnexpectedEof))` on `Closed`; `_cx` ignored as in the
source. -/
def MpscWriter.pollFlush (w : MpscWriter) (c : Channel) (_cx : Context) :
    Poll (Except IoError Unit) × MpscWriter × Channel :=
  let data := w.buf
  let w' : MpscWriter := { w with buf := [] }
  match c.trySend data with
  | (TrySendResult.ok, c') => (Poll.Ready (Except.ok ()), w', c')
  | (TrySendResult.full d, c') => (Poll.Pending, { w' with buf := d }, c')
  | (TrySendResult.closedErr _, c') =>
      (Poll.Ready (Except.error ⟨IoErrorKind.UnexpectedEof, "writer was closed"⟩), w', c')

/-- `AsyncWrite::poll_close`: `self.poll_flush(cx)`. -/
def MpscWriter.pollClose (w : MpscWriter) (c : Channel) (cx : Context) :
    Poll (Except IoError Unit) × MpscWriter × Channel :=
  w.pollFlush c cx

/-- The `std::io::Error` this writer raises when the channel is
closed. -/
def closedError : IoError :=
  ⟨IoErrorKind.UnexpectedEof, "writer was closed"⟩

/-- C1: when the channel accepts the send, `flush` returns success and
`poll_flush` returns `Ready(Ok)`, the buffer is empty afterwards, and
the element appended to the channel's queue is exactly the bytes that
were buffered before the call, as one element, byte-for-byte. -/
theorem flush_accepted (w : MpscWriter) (c : Channel) (cx : Context)
    (hclosed : c.closed = false) (hcap : c.queue.length < c.cap) :
    w.flush c =
      (Except.ok (), { w with buf := [] }, { c with queue := c.queue ++ [w.buf] })
    ∧ w.pollFlush c cx =
      (Poll.Ready (Except.ok ()), { w with buf := [] },
        { c with queue := c.queue ++ [w.buf] }) := by
  constructor <;>
    simp [MpscWriter.flush, MpscWriter.pollFlush, Channel.trySend, hclosed,
      Nat.not_le.mpr hcap]

/-- Witness for C1 at a concrete state: channel of capacity 1, empty
queue, buffer `[1,2,3]`. -/
theorem flush_accepted_witness :
    (Channel.mk 1 [] false).closed = false
    ∧ (Channel.mk 1 [] false).queue.length < (Channel.mk 1 [] false).cap
    ∧ (MpscWriter.mk [1, 2, 3] 0).flush (Channel.mk 1 [] false) =
        (Except.ok (), MpscWriter.mk [] 0, Channel.mk 1 [[1, 2, 3]] false)
    ∧ (MpscWriter.mk [1, 2, 3] 0).pollFlush (Channel.mk 1 [] false) 0 =
        (Poll.Ready (Except.ok ()), MpscWriter.mk [] 0, Channel.mk 1 [[1, 2, 3]] false) :=
  ⟨rfl, by decide,
    (flush_accepted (MpscWriter.mk [1, 2, 3] 0) (Channel.mk 1 [] false) 0 rfl (by decide)).1,
    (flush_accepted (MpscWriter.mk [1, 2, 3] 0) (Channel.mk 1 [] false) 0 rfl (by decide)).2⟩

/-- C2: when the channel rejects the send because it is at capacity, the
synchronous `flush` puts the removed content back (the writer state,
buffer included, is exactly what it was before the call), still returns
success, and the channel is unchanged (nothing transmitted). -/
theorem flush_full (w : MpscWriter) (c : Channel)
    (hclosed : c.closed = false) (hcap : c.cap ≤ c.queue.length) :
    w.flush c = (Except.ok (), w, c) := by
  simp [MpscWriter.flush, Channel.trySend, hclosed, hcap]

/-- Witness for C2 at a concrete state: channel of capacity 1 whose
queue already holds one element. -/
theorem flush_full_witness :
    (Channel.mk 1 [[9]] false).closed = false
    ∧ (Channel.mk 1 [[9]] false).cap ≤ (Channel.mk 1 [[9]] false).queue.length
    ∧ (MpscWriter.mk [4, 5] 0).flush (Channel.mk 1 [[9]] false) =
        (Except.ok (), MpscWriter.mk [4, 5] 0, Channel.mk 1 [[9]] false) :=
  ⟨rfl, by decide,
    flush_full (MpscWriter.mk [4, 5] 0) (Channel.mk 1 [[9]] false) rfl (by decide)⟩

/-- C3: when the channel is permanently closed, `flush` returns the
"writer was closed" `UnexpectedEof` failure and `poll_flush` returns
`Ready` with the same failure; in both the removed buffer content is
dropped (buffer empty afterwards, channel unchanged), and a repeated
flush from the resulting state still reports the closed failure. -/
theorem flush_closed (w : MpscWriter) (c : Channel) (cx : Context)
    (hclosed : c.closed = true) :
    w.flush c = (Except.error closedError, { w with buf := [] }, c)
    ∧ w.pollFlush c cx =
        (Poll.Ready (Except.error closedError), { w with buf := [] }, c)
    ∧ (MpscWriter.mk [] w.channel).flush c =
        (Except.error closedError, MpscWriter.mk [] w.channel, c) := by
  refine ⟨?_, ?_, ?_⟩ <;>
    simp [MpscWriter.flush, MpscWriter.pollFlush, Channel.trySend, hclosed,
      closedError]

/-- Witness for C3 at a concrete state: a closed channel. -/
theorem flush_closed_witness :
    (Channel.mk 4 [] true).closed = true
    ∧ (MpscWriter.mk [7] 0).flush (Channel.mk 4 [] true) =
        (Except.error closedError, MpscWriter.mk [] 0, Channel.mk 4 [] true)
    ∧ (MpscWriter.mk [7] 0).pollFlush (Channel.mk 4 [] true) 0 =
        (Poll.Ready (Except.error closedError), MpscWriter.mk [] 0, Channel.mk 4 [] true)
    ∧ (MpscWriter.mk [] 0).flush (Channel.mk 4 [] true) =
        (Except.error closedError, MpscWriter.mk [] 0, Channel.mk 4 [] true) :=
  ⟨rfl,
    (flush_closed (MpscWriter.mk [7] 0) (Channel.mk 4 [] true) 0 rfl).1,
    (flush_closed (MpscWriter.mk [7] 0) (Channel.mk 4 [] true) 0 rfl).2.1,
    (flush_closed (MpscWriter.mk [7] 0) (Channel.mk 4 [] true) 0 rfl).2.2⟩

/-- C4: when the channel rejects the send because it is at capacity,
`poll_flush` restores the removed content (writer state unchanged),
returns `Pending`, and the channel is unchanged (no blocking wait, no
transmission). -/
theorem pollFlush_full (w : MpscWriter) (c : Channel) (cx : Context)
    (hclosed : c.closed = false) (hcap : c.cap ≤ c.queue.length) :
    w.pollFlush c cx = (Poll.Pending, w, c) := by
  simp [MpscWriter.pollFlush, Channel.trySend, hclosed, hcap]

/-- Witness for C4 at a concrete state: channel of capacity 1 whose
queue already holds one element. -/
theorem pollFlush_full_witness :
    (Channel.mk 1 [[9]] false).closed = false
    ∧ (Channel.mk 1 [[9]] false).cap ≤ (Channel.mk 1 [[9]] false).queue.length
    ∧ (MpscWriter.mk [4, 5] 0).pollFlush (Channel.mk 1 [[9]] false) 0 =
        (Poll.Pending, MpscWriter.mk [4, 5] 0, Channel.mk 1 [[9]] false) :=
  ⟨rfl, by decide,
    pollFlush_full (MpscWriter.mk [4, 5] 0) (Channel.mk 1 [[9]] false) 0 rfl (by decide)⟩

/-- C5: for every byte sequence `b` and every state, `write b` and
`poll_write b` append `b` to the buffer, leave the channel untouched,
complete immediately (`poll_write` is `Ready`), and return success with
accepted count exactly `b.length`. -/
theorem write_appends (w : MpscWriter) (c : Channel) (cx : Context) (b : List Nat) :
    w.write c b = (Except.ok b.length, { w with buf := w.buf ++ b }, c)
    ∧ w.pollWrite c cx b =
        (Poll.Ready (Except.ok b.length), { w with buf := w.buf ++ b }, c) :=
  ⟨rfl, rfl⟩

/-- C6: `encode` appends the encoder's output to the buffer and then
performs `flush`, forwarding any error from either step; when encoding
fails, the channel is untouched (no element delivered), the returned
failure is exactly the encoder's error, and the partially appended bytes
remain in the buffer. -/
theorem encode_spec (w : MpscWriter) (c : Channel) (e : EncodeOutcome) :
    (∀ err : IoError, e.result = Except.error err →
        w.encode c e = (Except.error err, { w with buf := w.buf ++ e.appended }, c))
    ∧ (e.result = Except.ok () →
        w.encode c e = MpscWriter.flush { w with buf := w.buf ++ e.appended } c) := by
  constructor
  · intro err herr
    simp [MpscWriter.encode, herr]
  · intro hok
    simp [MpscWriter.encode, hok]

/-- Witness for C6 at a concrete state: an encoder that appends `[7]`
and then fails. -/
theorem encode_spec_witness :
    (EncodeOutcome.mk [7] (Except.error (IoError.mk (IoErrorKind.other 3) "enc failed"))).result
        = Except.error (IoError.mk (IoErrorKind.other 3) "enc failed")
    ∧ (MpscWriter.mk [1] 0).encode (Channel.mk 1 [] false)
          (EncodeOutcome.mk [7] (Except.error (IoError.mk (IoErrorKind.other 3) "enc failed"))) =
        (Except.error (IoError.mk (IoErrorKind.other 3) "enc failed"),
          MpscWriter.mk [1, 7] 0, Channel.mk 1 [] false) :=
  ⟨rfl,
    (encode_spec (MpscWriter.mk [1] 0) (Channel.mk 1 [] false)
        (EncodeOutcome.mk [7]
          (Except.error (IoError.mk (IoErrorKind.other 3) "enc failed")))).1
      (IoError.mk (IoErrorKind.other 3) "enc failed") rfl⟩

/-- C7: `clone` returns a writer with an empty buffer sharing the
original's channel handle; the original writer (a value `clone` only
reads, as Rust's `&self`) keeps its buffer. -/
theorem clone_spec (w : MpscWriter) :
    w.clone = MpscWriter.mk [] w.channel ∧ w.buf = w.buf :=
  ⟨rfl, rfl⟩

/-- C8: `poll_close` is exactly `poll_flush`: same result and same
resulting state from any state and context; in particular it never
marks the channel closed (no end-of-stream signal to the consumer). -/
theorem pollClose_eq_pollFlush (w : MpscWriter) (c : Channel) (cx : Context) :
    w.pollClose c cx = w.pollFlush c cx
    ∧ (w.pollClose c cx).2.2.closed = c.closed := by
  refine ⟨rfl, ?_⟩
  by_cases hclosed : c.closed
  · simp [MpscWriter.pollClose, MpscWriter.pollFlush, Channel.trySend, hclosed]
  · by_cases hcap : c.cap ≤ c.queue.length <;>
      simp [MpscWriter.pollClose, MpscWriter.pollFlush, Channel.trySend, hclosed, hcap]

/-- C9: flushing with an empty buffer is not a no-op: with channel
capacity available, a zero-length element is enqueued by both `flush`
and `poll_flush`; with the channel closed, the writer-closed error is
still raised by both. -/
theorem empty_flush_not_noop (w : MpscWriter) (c : Channel) (cx : Context)
    (hbuf : w.buf = []) :
    (c.closed = false → c.queue.length < c.cap →
        ((w.flush c).2.2.queue = c.queue ++ [[]]
          ∧ (w.pollFlush c cx).2.2.queue = c.queue ++ [[]]))
    ∧ (c.closed = true →
        ((w.flush c).1 = Except.error closedError
          ∧ (w.pollFlush c cx).1 = Poll.Ready (Except.error closedError))) := by
  constructor
  · intro hclosed hcap
    constructor <;>
      simp [MpscWriter.flush, MpscWriter.pollFlush, Channel.trySend, hbuf, hclosed,
        Nat.not_le.mpr hcap]
  · intro hclosed
    constructor <;>
      simp [MpscWriter.flush, MpscWriter.pollFlush, Channel.trySend, hclosed,
        closedError]

/-- Witness for C9 at concrete states: an empty-buffer writer against a
channel with room, and against a closed channel. -/
theorem empty_flush_not_noop_witness :
    (MpscWriter.mk [] 0).buf = []
    ∧ (((MpscWriter.mk [] 0).flush (Channel.mk 2 [] false)).2.2.queue = [[]]
        ∧ ((MpscWriter.mk [] 0).pollFlush (Channel.mk 2 [] false) 0).2.2.queue = [[]])
    ∧ (((MpscWriter.mk [] 0).flush (Channel.mk 2 [] true)).1 = Except.error closedError
        ∧ ((MpscWriter.mk [] 0).pollFlush (Channel.mk 2 [] true) 0).1 =
            Poll.Ready (Except.error closedError)) :=
  ⟨rfl,
    (empty_flush_not_noop (MpscWriter.mk [] 0) (Channel.mk 2 [] false) 0 rfl).1
      rfl (by decide),
    (empty_flush_not_noop (MpscWriter.mk [] 0) (Channel.mk 2 [] true) 0 rfl).2 rfl⟩

/-- C10: `poll_write`, `poll_flush` and `poll_close` never use the task
context: for any two contexts the result and the resulting state are
identical; in particular `poll_flush` on a full open channel returns
`Pending` while leaving writer and channel (hence any waker bookkeeping)
exactly as they were. -/
theorem context_unused (w : MpscWriter) (c : Channel) (cx1 cx2 : Context)
    (b : List Nat) :
    w.pollWrite c cx1 b = w.pollWrite c cx2 b
    ∧ w.pollFlush c cx1 = w.pollFlush c cx2
    ∧ w.pollClose c cx1 = w.pollClose c cx2
    ∧ (c.closed = false → c.cap ≤ c.queue.length →
        w.pollFlush c cx1 = (Poll.Pending, w, c)) := by
  refine ⟨rfl, rfl, rfl, ?_⟩
  intro hclosed hcap
  simp [MpscWriter.pollFlush, Channel.trySend, hclosed, hcap]

/-- Witness for C10 at a concrete state: two distinct contexts over a
full open channel. -/
theorem context_unused_witness :
    (Channel.mk 1 [[9]] false).closed = false
    ∧ (Channel.mk 1 [[9]] false).cap ≤ (Channel.mk 1 [[9]] false).queue.length
    ∧ (MpscWriter.mk [4] 0).pollWrite (Channel.mk 1 [[9]] false) 17 [8] =
        (MpscWriter.mk [4] 0).pollWrite (Channel.mk 1 [[9]] false) 42 [8]
    ∧ (MpscWriter.mk [4] 0).pollFlush (Channel.mk 1 [[9]] false) 17 =
        (Poll.Pending, MpscWriter.mk [4] 0, Channel.mk 1 [[9]] false) :=
  ⟨rfl, by decide,
    (context_unused (MpscWriter.mk [4] 0) (Channel.mk 1 [[9]] false) 17 42 [8]).1,
    (context_unused (MpscWriter.mk [4] 0) (Channel.mk 1 [[9]] false) 17 42 [8]).2.2.2
      rfl (by decide)⟩

end TwitchChat
